import Mathlib

/-!
Verification of the chart-type selection logic of the PDF-OCR repository.

The repository consists of six near-duplicate scripts; each defines a function
`determine_chart_type` mapping a pandas DataFrame to a chart-kind string (or
Python `None`).  Every selector reads only the shape of the frame: the number
of columns, each column's dtype, the number of rows, and (in the richest
variant) the lowercased column names.  We embed the frame shape and each
selector variant below and prove properties of the selection logic.
-/

namespace ChartRepo

/-- The pandas dtypes the repository's selectors distinguish: the two numeric
dtypes every variant tests for, the two dtypes counted by
`select_dtypes(include=['object', 'category'])`, and `bool` — a dtype that is
neither numeric nor object/category but is still excluded from `np.number`. -/
inductive Dtype where
  | int64
  | float64
  | object
  | category
  | boolDt
  deriving DecidableEq

/-- Membership in `select_dtypes(include=['int64', 'float64'])`; also the
`np.issubdtype(·, np.number)` test of csv1.py / abc_chat.py, since `int64` and
`float64` are the only numeric dtypes modelled. -/
def Dtype.isNumeric : Dtype → Bool
  | .int64 => true
  | .float64 => true
  | _ => false

/-- Membership in `select_dtypes(include=['object', 'category'])`, i.e. the
`dtype in ['object', 'category']` test of pqr.py / xyz.py. -/
def Dtype.isObjectCategory : Dtype → Bool
  | .object => true
  | .category => true
  | _ => false

/-- One cell of a column: a number or a piece of text.  No selector ever reads
cell values; cells are carried so that value-independence (the determinism
claim) is a meaningful statement about the embedding. -/
inductive Cell where
  | num (q : Int)
  | text (s : String)
  deriving DecidableEq

/-- A named column: its label, its pandas dtype, and its cells in order. -/
structure Column where
  name : String
  dtype : Dtype
  values : List Cell
  deriving DecidableEq

/-- A DataFrame: an ordered sequence of named columns. -/
structure DataFrame where
  cols : List Column
  deriving DecidableEq

/-- `len(df)`: the row count.  For a rectangular frame this is the common
column length (0 when there are no columns at all). -/
def DataFrame.len (df : DataFrame) : Nat :=
  (df.cols.head?.map (fun c => c.values.length)).getD 0

/-- The frame is rectangular: all columns have the common length `df.len`. -/
def DataFrame.Rectangular (df : DataFrame) : Prop :=
  ∀ c ∈ df.cols, c.values.length = df.len

instance (df : DataFrame) : Decidable df.Rectangular := by
  unfold DataFrame.Rectangular; exact inferInstance

/-- pandas `df.empty`: true iff one of the two axes has length 0. -/
def DataFrame.empty (df : DataFrame) : Bool :=
  df.cols.length == 0 || df.len == 0

/-- The chart kinds returned by some `determine_chart_type` variant, plus
`none` for Python's `None`. -/
inductive ChartKind where
  | pie
  | line
  | scatter
  | histogram
  | heatmap
  | bubble
  | radar
  | bar
  | area
  | dot
  | treemap
  | gauge
  | box
  | none
  deriving DecidableEq

/-- Python's `str.lower()`, applied character by character (the column names
appearing in this development are ASCII). -/
def lowerName (s : String) : String := String.mk (s.data.map Char.toLower)

instance {ε α : Type} [DecidableEq ε] [DecidableEq α] : DecidableEq (Except ε α) := fun a b =>
  match a, b with
  | .error e, .error f =>
    if h : e = f then .isTrue (congrArg Except.error h)
    else .isFalse (fun hc => h (Except.error.inj hc))
  | .ok x, .ok y =>
    if h : x = y then .isTrue (congrArg Except.ok h)
    else .isFalse (fun hc => h (Except.ok.inj hc))
  | .error _, .ok _ => .isFalse (fun hc => Except.noConfusion hc)
  | .ok _, .error _ => .isFalse (fun hc => Except.noConfusion hc)

/-- `len(df.select_dtypes(include=['int64', 'float64']).columns)` — the local
`num_cols` count computed identically in str.py and waterfall.py (and, via
`np.number`, in csv1.py). -/
def num_cols (df : DataFrame) : Nat :=
  (df.cols.filter (fun c => c.dtype.isNumeric)).length

/-- `len(df.select_dtypes(include=['object', 'category']).columns)` — the
local `cat_cols` count computed identically in str.py and waterfall.py. -/
def cat_cols (df : DataFrame) : Nat :=
  (df.cols.filter (fun c => c.dtype.isObjectCategory)).length

/-- `any(word in time_columns for word in ['month', 'year', 'date', 'time',
'day'])` where `time_columns = [col.lower() for col in df.columns]`, as in
str.py and waterfall.py. -/
def time_check (df : DataFrame) : Bool :=
  ["month", "year", "date", "time", "day"].any
    (fun w => (df.cols.map (fun c => lowerName c.name)).contains w)

namespace Waterfall

/-- `determine_chart_type` of `src/waterfall.py`: the richest rule chain, with
no input guard.  The nested time-name test of the line rule is written as one
conjunction, which is control-flow equivalent (if the outer shape test passes
but no time name is present, control falls through to the next rule). -/
def determine_chart_type (df : DataFrame) : ChartKind :=
  if df.cols.length = 2 ∧ num_cols df = 1 ∧ cat_cols df = 1 ∧ df.len ≤ 10 then .pie
  else if 2 ≤ df.cols.length ∧ 0 < num_cols df ∧ time_check df = true then .line
  else if 2 ≤ num_cols df then .scatter
  else if df.cols.length = 1 ∧ num_cols df = 1 then .histogram
  else if 1 < df.cols.length ∧ num_cols df = df.cols.length then .heatmap
  else if 3 ≤ num_cols df then .bubble
  else if 2 < df.cols.length ∧ 1 < num_cols df ∧ cat_cols df = 1 then .radar
  else if (df.cols.length = 2 ∧ num_cols df = 1 ∧ cat_cols df = 1) ∨
      (2 < df.cols.length ∧ 0 < cat_cols df ∧ 0 < num_cols df) then .bar
  else if (df.cols.length = 2 ∧ num_cols df = 1 ∧ cat_cols df = 1) ∨
      (2 < df.cols.length ∧ 0 < num_cols df) then .area
  else if df.cols.length = 2 ∧ num_cols df = 1 ∧ cat_cols df = 1 then .dot
  else if df.cols.length = 2 ∧ num_cols df = 1 ∧ cat_cols df = 1 then .treemap
  else if df.cols.length = 2 ∧ num_cols df = 1 ∧ cat_cols df = 1 ∧ df.len ≤ 5 then .gauge
  else .none

end Waterfall

namespace Str

/-- The `ValueError` message str.py raises on an empty frame. -/
def emptyMsg : String := "Input DataFrame is empty."

/-- `determine_chart_type` of `src/str.py`.  The
`isinstance(df, pd.DataFrame)` guard is enforced by the Lean type of the
argument; the `df.empty` guard raises `ValueError`, modelled as
`Except.error`.  The rule chain after the guards is character-for-character
the one of waterfall.py. -/
def determine_chart_type (df : DataFrame) : Except String ChartKind :=
  if df.empty = true then Except.error emptyMsg
  else Except.ok
    (if df.cols.length = 2 ∧ num_cols df = 1 ∧ cat_cols df = 1 ∧ df.len ≤ 10 then .pie
     else if 2 ≤ df.cols.length ∧ 0 < num_cols df ∧ time_check df = true then .line
     else if 2 ≤ num_cols df then .scatter
     else if df.cols.length = 1 ∧ num_cols df = 1 then .histogram
     else if 1 < df.cols.length ∧ num_cols df = df.cols.length then .heatmap
     else if 3 ≤ num_cols df then .bubble
     else if 2 < df.cols.length ∧ 1 < num_cols df ∧ cat_cols df = 1 then .radar
     else if (df.cols.length = 2 ∧ num_cols df = 1 ∧ cat_cols df = 1) ∨
         (2 < df.cols.length ∧ 0 < cat_cols df ∧ 0 < num_cols df) then .bar
     else if (df.cols.length = 2 ∧ num_cols df = 1 ∧ cat_cols df = 1) ∨
         (2 < df.cols.length ∧ 0 < num_cols df) then .area
     else if df.cols.length = 2 ∧ num_cols df = 1 ∧ cat_cols df = 1 then .dot
     else if df.cols.length = 2 ∧ num_cols df = 1 ∧ cat_cols df = 1 then .treemap
     else if df.cols.length = 2 ∧ num_cols df = 1 ∧ cat_cols df = 1 ∧ df.len ≤ 5 then .gauge
     else .none)

end Str

/-- The richest rule chain as a function of the schema numbers it reads:
column count `n`, numeric-column count `a`, object/category-column count `b`,
row count `r`, and whether a time-word column name is present, `t`. -/
def selectCore (n a b r : Nat) (t : Bool) : ChartKind :=
  if n = 2 ∧ a = 1 ∧ b = 1 ∧ r ≤ 10 then .pie
  else if 2 ≤ n ∧ 0 < a ∧ t = true then .line
  else if 2 ≤ a then .scatter
  else if n = 1 ∧ a = 1 then .histogram
  else if 1 < n ∧ a = n then .heatmap
  else if 3 ≤ a then .bubble
  else if 2 < n ∧ 1 < a ∧ b = 1 then .radar
  else if (n = 2 ∧ a = 1 ∧ b = 1) ∨ (2 < n ∧ 0 < b ∧ 0 < a) then .bar
  else if (n = 2 ∧ a = 1 ∧ b = 1) ∨ (2 < n ∧ 0 < a) then .area
  else if n = 2 ∧ a = 1 ∧ b = 1 then .dot
  else if n = 2 ∧ a = 1 ∧ b = 1 then .treemap
  else if n = 2 ∧ a = 1 ∧ b = 1 ∧ r ≤ 5 then .gauge
  else .none

lemma waterfall_eq_core (df : DataFrame) :
    Waterfall.determine_chart_type df =
      selectCore df.cols.length (num_cols df) (cat_cols df) df.len
        (time_check df) := rfl

lemma str_ok (df : DataFrame) (h : df.empty = false) :
    Str.determine_chart_type df =
      Except.ok (Waterfall.determine_chart_type df) := by
  unfold Str.determine_chart_type
  rw [h]
  rfl

lemma str_err (df : DataFrame) (h : df.empty = true) :
    Str.determine_chart_type df = Except.error Str.emptyMsg := by
  unfold Str.determine_chart_type
  rw [h]
  rfl

namespace Pqr

/-- `determine_chart_type` of `src/pqr.py`: dispatch on the column count,
then positional dtype tests (`df.dtypes[0]`, `df.dtypes[1]`, `df.dtypes[2]`).
Each Python `len(df.columns)` test is rendered as a list pattern; when no
inner branch fires, control reaches the final `return None`. -/
def determine_chart_type (df : DataFrame) : ChartKind :=
  match df.cols with
  | [c0] =>
    if c0.dtype.isNumeric = true then .histogram else .none
  | [c0, c1] =>
    if c0.dtype.isNumeric = true ∧ c1.dtype.isNumeric = true then .scatter
    else if c1.dtype.isNumeric = true ∧ 1 < df.len then .bar
    else if c1.dtype.isNumeric = true ∧ df.len ≤ 10 then .pie
    else .none
  | c0 :: c1 :: c2 :: _ =>
    if c0.dtype.isObjectCategory = true ∧ c1.dtype.isObjectCategory = true ∧
        c2.dtype.isNumeric = true then .heatmap
    else if c1.dtype.isNumeric = true then .line
    else .none
  | [] => .none

end Pqr

namespace Xyz

/-- `determine_chart_type` of `src/xyz.py` — textually identical to the one
of pqr.py. -/
def determine_chart_type (df : DataFrame) : ChartKind :=
  match df.cols with
  | [c0] =>
    if c0.dtype.isNumeric = true then .histogram else .none
  | [c0, c1] =>
    if c0.dtype.isNumeric = true ∧ c1.dtype.isNumeric = true then .scatter
    else if c1.dtype.isNumeric = true ∧ 1 < df.len then .bar
    else if c1.dtype.isNumeric = true ∧ df.len ≤ 10 then .pie
    else .none
  | c0 :: c1 :: c2 :: _ =>
    if c0.dtype.isObjectCategory = true ∧ c1.dtype.isObjectCategory = true ∧
        c2.dtype.isNumeric = true then .heatmap
    else if c1.dtype.isNumeric = true then .line
    else .none
  | [] => .none

lemma eq_pqr (df : DataFrame) :
    determine_chart_type df = Pqr.determine_chart_type df := rfl

end Xyz

namespace Csv1

/-- `len(df.select_dtypes(exclude=[np.number]).columns)` in csv1.py: every
column that is not numeric counts as categorical there (including `bool`). -/
def cat_cols (df : DataFrame) : Nat :=
  (df.cols.filter (fun c => !c.dtype.isNumeric)).length

/-- `determine_chart_type` of `src/csv1.py`.  Its `num_cols` is the
`np.number` count, i.e. `ChartRepo.num_cols`.  When no inner branch of the
two-column case fires, control reaches the final `return None`. -/
def determine_chart_type (df : DataFrame) : ChartKind :=
  if df.cols.length = 2 then
    if num_cols df = 1 ∧ 10 < df.len then .histogram
    else if num_cols df = 1 ∧ df.len ≤ 10 then .pie
    else if num_cols df = 2 then .scatter
    else if num_cols df = 1 ∧ cat_cols df = 1 then .bar
    else .none
  else if 2 ≤ num_cols df then
    if 2 < num_cols df then .heatmap else .line
  else if 0 < cat_cols df ∧ 0 < num_cols df then .box
  else .none

end Csv1

namespace AbcChat

/-- `determine_chart_type` of `src/abc_chat.py`: dispatch on the column
count, then a positional `np.issubdtype(df.dtypes[1], np.number)` test. -/
def determine_chart_type (df : DataFrame) : ChartKind :=
  match df.cols with
  | [_, c1] =>
    if c1.dtype.isNumeric = true ∧ 1 < df.len then .bar
    else if c1.dtype.isNumeric = true ∧ df.len ≤ 10 then .pie
    else .none
  | _ :: c1 :: _ :: _ =>
    if c1.dtype.isNumeric = true then .line else .none
  | _ => .none

end AbcChat

/-- The predicate of the `i`-th rule (0-indexed) of the richest variant's
ordered decision list, exactly as tested in str.py / waterfall.py.  Indices
12 and above hold no rule. -/
def rulePred : Nat → DataFrame → Prop
  | 0, df => df.cols.length = 2 ∧ num_cols df = 1 ∧ cat_cols df = 1 ∧ df.len ≤ 10
  | 1, df => 2 ≤ df.cols.length ∧ 0 < num_cols df ∧ time_check df = true
  | 2, df => 2 ≤ num_cols df
  | 3, df => df.cols.length = 1 ∧ num_cols df = 1
  | 4, df => 1 < df.cols.length ∧ num_cols df = df.cols.length
  | 5, df => 3 ≤ num_cols df
  | 6, df => 2 < df.cols.length ∧ 1 < num_cols df ∧ cat_cols df = 1
  | 7, df => (df.cols.length = 2 ∧ num_cols df = 1 ∧ cat_cols df = 1) ∨
      (2 < df.cols.length ∧ 0 < cat_cols df ∧ 0 < num_cols df)
  | 8, df => (df.cols.length = 2 ∧ num_cols df = 1 ∧ cat_cols df = 1) ∨
      (2 < df.cols.length ∧ 0 < num_cols df)
  | 9, df => df.cols.length = 2 ∧ num_cols df = 1 ∧ cat_cols df = 1
  | 10, df => df.cols.length = 2 ∧ num_cols df = 1 ∧ cat_cols df = 1
  | 11, df => df.cols.length = 2 ∧ num_cols df = 1 ∧ cat_cols df = 1 ∧ df.len ≤ 5
  | _ + 12, _ => False

/-- The chart kind of the `i`-th rule of the richest variant, in the same
order. -/
def ruleKind : Nat → ChartKind
  | 0 => .pie
  | 1 => .line
  | 2 => .scatter
  | 3 => .histogram
  | 4 => .heatmap
  | 5 => .bubble
  | 6 => .radar
  | 7 => .bar
  | 8 => .area
  | 9 => .dot
  | 10 => .treemap
  | 11 => .gauge
  | _ + 12 => .none

instance (i : Nat) (df : DataFrame) : Decidable (rulePred i df) :=
  match i with
  | 0 => by unfold rulePred; exact inferInstance
  | 1 => by unfold rulePred; exact inferInstance
  | 2 => by unfold rulePred; exact inferInstance
  | 3 => by unfold rulePred; exact inferInstance
  | 4 => by unfold rulePred; exact inferInstance
  | 5 => by unfold rulePred; exact inferInstance
  | 6 => by unfold rulePred; exact inferInstance
  | 7 => by unfold rulePred; exact inferInstance
  | 8 => by unfold rulePred; exact inferInstance
  | 9 => by unfold rulePred; exact inferInstance
  | 10 => by unfold rulePred; exact inferInstance
  | 11 => by unfold rulePred; exact inferInstance
  | _ + 12 => by unfold rulePred; exact inferInstance

/-- The Schema Descriptor of spec §3: column count, ordered index sequences
of the numeric and of the object/category columns, row count, and the
lowercased column names in order. -/
structure SchemaDescriptor where
  column_count : Nat
  numeric_columns : List Nat
  categorical_columns : List Nat
  row_count : Nat
  column_names_lowercased : List String
  deriving DecidableEq

/-- Schema extraction (spec §4.1): the role played in the source by
`select_dtypes`, `len(df.columns)`, `len(df)` and the column-name
lowering. -/
def extract (df : DataFrame) : SchemaDescriptor where
  column_count := df.cols.length
  numeric_columns :=
    ((df.cols.enum).filter (fun p => p.2.dtype.isNumeric)).map (fun p => p.1)
  categorical_columns :=
    ((df.cols.enum).filter (fun p => p.2.dtype.isObjectCategory)).map (fun p => p.1)
  row_count := df.len
  column_names_lowercased := df.cols.map (fun c => lowerName c.name)

lemma not_num_of_objcat {d : Dtype} (h : d.isObjectCategory = true) :
    d.isNumeric = false := by
  cases d <;> simp_all [Dtype.isNumeric, Dtype.isObjectCategory]

lemma not_objcat_of_num {d : Dtype} (h : d.isNumeric = true) :
    d.isObjectCategory = false := by
  cases d <;> simp_all [Dtype.isNumeric, Dtype.isObjectCategory]

lemma filter_split_kinds (l : List Column)
    (h : ∀ c ∈ l, c.dtype.isNumeric = true ∨ c.dtype.isObjectCategory = true) :
    (l.filter (fun c => c.dtype.isNumeric)).length +
      (l.filter (fun c => c.dtype.isObjectCategory)).length = l.length := by
  induction l with
  | nil => rfl
  | cons c t ih =>
    have hc := h c (List.mem_cons_self c t)
    have ht := ih (fun x hx => h x (List.mem_cons_of_mem _ hx))
    rcases hc with hn | ho
    · have ho' : c.dtype.isObjectCategory = false := not_objcat_of_num hn
      simp only [List.filter_cons, hn, ho', if_true, if_false, List.length_cons,
        Bool.false_eq_true, if_neg]
      omega
    · have hn' : c.dtype.isNumeric = false := not_num_of_objcat ho
      simp only [List.filter_cons, hn', ho, if_true, if_false, List.length_cons,
        Bool.false_eq_true, if_neg]
      omega

/-- On a frame whose columns are all numeric or object/category, the two
dtype-filtered counts partition the columns. -/
lemma num_add_cat_of_kinds (df : DataFrame)
    (h : ∀ c ∈ df.cols, c.dtype.isNumeric = true ∨ c.dtype.isObjectCategory = true) :
    num_cols df + cat_cols df = df.cols.length :=
  filter_split_kinds df.cols h

lemma filter_not_split (l : List Column) :
    (l.filter (fun c => !c.dtype.isNumeric)).length +
      (l.filter (fun c => c.dtype.isNumeric)).length = l.length := by
  induction l with
  | nil => rfl
  | cons c t ih =>
    cases hn : c.dtype.isNumeric <;> simp [List.filter_cons, hn] <;> omega

/-- csv1.py's `exclude=[np.number]` count is the complement of the
`include=[np.number]` count. -/
lemma csv1_cat_add_num (df : DataFrame) :
    Csv1.cat_cols df + num_cols df = df.cols.length :=
  filter_not_split df.cols

lemma enumFrom_filter_length (f : Column → Bool) (l : List Column) :
    ∀ n : Nat,
      ((List.enumFrom n l).filter (fun p => f p.2)).length = (l.filter f).length := by
  induction l with
  | nil => intro n; rfl
  | cons c t ih =>
    intro n
    cases hc : f c <;> simp [List.enumFrom, List.filter_cons, hc, ih]

lemma num_cols_eq_extract (df : DataFrame) :
    num_cols df = (extract df).numeric_columns.length := by
  unfold num_cols extract
  simp only [List.length_map, List.enum]
  exact (enumFrom_filter_length (fun c => c.dtype.isNumeric) df.cols 0).symm

lemma cat_cols_eq_extract (df : DataFrame) :
    cat_cols df = (extract df).categorical_columns.length := by
  unfold cat_cols extract
  simp only [List.length_map, List.enum]
  exact (enumFrom_filter_length (fun c => c.dtype.isObjectCategory) df.cols 0).symm

/-- The catalog of the richest variant, in rule order. -/
def richestKinds : List ChartKind :=
  [.pie, .line, .scatter, .histogram, .heatmap, .bubble, .radar, .bar, .area,
    .dot, .treemap, .gauge]

lemma selectCore_mem (n a b r : Nat) (t : Bool) :
    selectCore n a b r t ∈ ChartKind.none :: richestKinds := by
  unfold selectCore
  by_cases h0 : n = 2 ∧ a = 1 ∧ b = 1 ∧ r ≤ 10
  · rw [if_pos h0]; decide
  rw [if_neg h0]
  by_cases h1 : 2 ≤ n ∧ 0 < a ∧ t = true
  · rw [if_pos h1]; decide
  rw [if_neg h1]
  by_cases h2 : 2 ≤ a
  · rw [if_pos h2]; decide
  rw [if_neg h2]
  by_cases h3 : n = 1 ∧ a = 1
  · rw [if_pos h3]; decide
  rw [if_neg h3]
  by_cases h4 : 1 < n ∧ a = n
  · rw [if_pos h4]; decide
  rw [if_neg h4]
  by_cases h5 : 3 ≤ a
  · rw [if_pos h5]; decide
  rw [if_neg h5]
  by_cases h6 : 2 < n ∧ 1 < a ∧ b = 1
  · rw [if_pos h6]; decide
  rw [if_neg h6]
  by_cases h7 : (n = 2 ∧ a = 1 ∧ b = 1) ∨ (2 < n ∧ 0 < b ∧ 0 < a)
  · rw [if_pos h7]; decide
  rw [if_neg h7]
  by_cases h8 : (n = 2 ∧ a = 1 ∧ b = 1) ∨ (2 < n ∧ 0 < a)
  · rw [if_pos h8]; decide
  rw [if_neg h8]
  by_cases h9 : n = 2 ∧ a = 1 ∧ b = 1
  · rw [if_pos h9]; decide
  rw [if_neg h9, if_neg h9]
  by_cases h11 : n = 2 ∧ a = 1 ∧ b = 1 ∧ r ≤ 5
  · rw [if_pos h11]; decide
  rw [if_neg h11]; decide

/-- Under the partition hypothesis `a + b = n`, the area, dot, treemap and
gauge rules are shadowed by the bar rule and the bubble rule by the scatter
rule. -/
lemma selectCore_unreachable (n a b r : Nat) (t : Bool) (h : a + b = n) :
    selectCore n a b r t ∉
      ([.area, .dot, .treemap, .gauge, .bubble] : List ChartKind) := by
  unfold selectCore
  by_cases h0 : n = 2 ∧ a = 1 ∧ b = 1 ∧ r ≤ 10
  · rw [if_pos h0]; decide
  rw [if_neg h0]
  by_cases h1 : 2 ≤ n ∧ 0 < a ∧ t = true
  · rw [if_pos h1]; decide
  rw [if_neg h1]
  by_cases h2 : 2 ≤ a
  · rw [if_pos h2]; decide
  rw [if_neg h2]
  by_cases h3 : n = 1 ∧ a = 1
  · rw [if_pos h3]; decide
  rw [if_neg h3]
  by_cases h4 : 1 < n ∧ a = n
  · rw [if_pos h4]; decide
  rw [if_neg h4]
  by_cases h5 : 3 ≤ a
  · exact absurd h5 (by omega)
  rw [if_neg h5]
  by_cases h6 : 2 < n ∧ 1 < a ∧ b = 1
  · rw [if_pos h6]; decide
  rw [if_neg h6]
  by_cases h7 : (n = 2 ∧ a = 1 ∧ b = 1) ∨ (2 < n ∧ 0 < b ∧ 0 < a)
  · rw [if_pos h7]; decide
  rw [if_neg h7]
  by_cases h8 : (n = 2 ∧ a = 1 ∧ b = 1) ∨ (2 < n ∧ 0 < a)
  · exact absurd h8 (by omega)
  rw [if_neg h8]
  by_cases h9 : n = 2 ∧ a = 1 ∧ b = 1
  · exact absurd h9 (by omega)
  rw [if_neg h9, if_neg h9]
  by_cases h11 : n = 2 ∧ a = 1 ∧ b = 1 ∧ r ≤ 5
  · exact absurd h11 (by omega)
  rw [if_neg h11]; decide

/-! ### Claim C1 -/

/-- A rectangular two-column frame with defined columns and zero rows. -/
def zeroRowDf : DataFrame :=
  ⟨[⟨"Category", .object, []⟩, ⟨"Value", .int64, []⟩]⟩

/-- Claim C1 is false as stated for str.py's `determine_chart_type`: on a
rectangular zero-row frame with two defined columns the function raises
`ValueError` (its `df.empty` guard fires), so the zero-row input is rejected,
not handled. -/
theorem claim_C1_counterexample :
    zeroRowDf.Rectangular ∧ zeroRowDf.cols.length = 2 ∧ zeroRowDf.len = 0 ∧
    Str.determine_chart_type zeroRowDf = Except.error Str.emptyMsg := by decide

/-- Claim C1 (amended): for every rectangular frame, the waterfall.py variant
of the richest selector is total and returns exactly one element of the
catalog-or-none set, including on zero-row input; the str.py variant returns
`ok` of the very same element whenever the frame is non-empty, and raises
`ValueError` (here: `Except.error`) exactly on empty input — zero rows or
zero columns. -/
theorem claim_C1_amended (df : DataFrame) (_hrect : df.Rectangular) :
    Waterfall.determine_chart_type df ∈ ChartKind.none :: richestKinds ∧
    (df.empty = false →
      Str.determine_chart_type df = Except.ok (Waterfall.determine_chart_type df)) ∧
    (df.empty = true → Str.determine_chart_type df = Except.error Str.emptyMsg) := by
  refine ⟨?_, str_ok df, str_err df⟩
  rw [waterfall_eq_core]
  exact selectCore_mem _ _ _ _ _

def exC1w : DataFrame :=
  ⟨[⟨"Category", .object, [.text "A", .text "B", .text "C", .text "D", .text "E"]⟩,
    ⟨"Value", .int64, [.num 10, .num 20, .num 30, .num 40, .num 50]⟩]⟩

theorem claim_C1_witness :
    exC1w.Rectangular ∧
    (Waterfall.determine_chart_type exC1w ∈ ChartKind.none :: richestKinds ∧
      (exC1w.empty = false →
        Str.determine_chart_type exC1w = Except.ok (Waterfall.determine_chart_type exC1w)) ∧
      (exC1w.empty = true → Str.determine_chart_type exC1w = Except.error Str.emptyMsg)) :=
  ⟨by decide, claim_C1_amended exC1w (by decide)⟩

/-! ### Claim C2 -/

/-- Claim C2: two frames with identical schema descriptors (column count,
per-column kind, row count, lowercased column names) are classified
identically by str.py's selector — the result never depends on the cell
values. -/
theorem claim_C2_schema_determinism (d1 d2 : DataFrame)
    (h : extract d1 = extract d2) :
    Str.determine_chart_type d1 = Str.determine_chart_type d2 := by
  have hn : d1.cols.length = d2.cols.length := by
    have hc := congrArg SchemaDescriptor.column_count h
    simpa [extract] using hc
  have ha : num_cols d1 = num_cols d2 := by
    rw [num_cols_eq_extract, num_cols_eq_extract, h]
  have hb : cat_cols d1 = cat_cols d2 := by
    rw [cat_cols_eq_extract, cat_cols_eq_extract, h]
  have hr : d1.len = d2.len := by
    have hc := congrArg SchemaDescriptor.row_count h
    simpa [extract] using hc
  have ht : time_check d1 = time_check d2 := by
    have hc := congrArg SchemaDescriptor.column_names_lowercased h
    simp only [extract] at hc
    unfold time_check
    rw [hc]
  have he : d1.empty = d2.empty := by
    unfold DataFrame.empty
    rw [hn, hr]
  have e1 : Str.determine_chart_type d1 =
      if d1.empty = true then Except.error Str.emptyMsg
      else Except.ok
        (selectCore d1.cols.length (num_cols d1) (cat_cols d1) d1.len
          (time_check d1)) := rfl
  have e2 : Str.determine_chart_type d2 =
      if d2.empty = true then Except.error Str.emptyMsg
      else Except.ok
        (selectCore d2.cols.length (num_cols d2) (cat_cols d2) d2.len
          (time_check d2)) := rfl
  rw [e1, e2, hn, ha, hb, hr, ht, he]

def exC2a : DataFrame :=
  ⟨[⟨"Category", .object, [.text "A", .text "B", .text "C"]⟩,
    ⟨"Value", .int64, [.num 1, .num 2, .num 3]⟩]⟩

/-- Same schema as `exC2a`, very different cell values and magnitudes. -/
def exC2b : DataFrame :=
  ⟨[⟨"Category", .object, [.text "x", .text "y", .text "z"]⟩,
    ⟨"Value", .int64, [.num 1000, .num 2000, .num 3000]⟩]⟩

theorem claim_C2_witness :
    extract exC2a = extract exC2b ∧
    Str.determine_chart_type exC2a = Str.determine_chart_type exC2b :=
  ⟨by decide, claim_C2_schema_determinism exC2a exC2b (by decide)⟩

/-! ### Claim C3 -/

def exC3 : DataFrame :=
  ⟨[⟨"Month", .object, [.text "Jan", .text "Feb", .text "Mar", .text "Apr", .text "May"]⟩,
    ⟨"Value", .int64, [.num 10, .num 20, .num 30, .num 40, .num 50]⟩]⟩

/-- Claim C3 is false as stated: this frame has a column named "Month", at
least 2 columns and at least one numeric column, yet the richest selector
returns pie, not line — the pie rule precedes the line rule in str.py. -/
theorem claim_C3_counterexample :
    2 ≤ exC3.cols.length ∧ 0 < num_cols exC3 ∧ time_check exC3 = true ∧
    Str.determine_chart_type exC3 = Except.ok ChartKind.pie ∧
    Str.determine_chart_type exC3 ≠ Except.ok ChartKind.line := by decide

/-- Claim C3 (amended): a frame with a time-token column name, at least 2
columns and at least one numeric column is classified line by str.py's
selector, overriding every rule below the line rule, provided the frame is
not empty (str.py would raise) and does not match the pie rule sitting above
the line rule (2 columns, 1 numeric + 1 categorical, at most 10 rows). -/
theorem claim_C3_amended (df : DataFrame)
    (hc : 2 ≤ df.cols.length) (hn : 0 < num_cols df)
    (ht : time_check df = true) (hr : 0 < df.len)
    (hnp : ¬(df.cols.length = 2 ∧ num_cols df = 1 ∧ cat_cols df = 1 ∧ df.len ≤ 10)) :
    Str.determine_chart_type df = Except.ok ChartKind.line := by
  have he : df.empty = false := by
    simp only [DataFrame.empty, Bool.or_eq_false_iff, beq_eq_false_iff_ne, ne_eq]
    omega
  rw [str_ok df he, waterfall_eq_core]
  unfold selectCore
  rw [if_neg hnp, if_pos ⟨hc, hn, ht⟩]

def exC3w : DataFrame :=
  ⟨[⟨"Month", .int64, [.num 1, .num 2, .num 3]⟩,
    ⟨"Value", .int64, [.num 4, .num 5, .num 6]⟩]⟩

theorem claim_C3_witness :
    (2 ≤ exC3w.cols.length ∧ 0 < num_cols exC3w ∧ time_check exC3w = true ∧
      0 < exC3w.len ∧
      ¬(exC3w.cols.length = 2 ∧ num_cols exC3w = 1 ∧ cat_cols exC3w = 1 ∧
        exC3w.len ≤ 10)) ∧
    Str.determine_chart_type exC3w = Except.ok ChartKind.line :=
  ⟨by decide,
    claim_C3_amended exC3w (by decide) (by decide) (by decide) (by decide) (by decide)⟩

/-! ### Claim C4 -/

/-- Claim C4: with 2 columns, exactly one numeric and one categorical, the
richest selector returns pie at a row count of exactly 10 and, at 11 rows,
falls through to bar or line (depending on the column names) — never pie. -/
theorem claim_C4_pie_boundary (df : DataFrame)
    (hc : df.cols.length = 2) (ha : num_cols df = 1) (hb : cat_cols df = 1) :
    (df.len = 10 → Str.determine_chart_type df = Except.ok ChartKind.pie) ∧
    (df.len = 11 →
      (Str.determine_chart_type df = Except.ok ChartKind.bar ∨
        Str.determine_chart_type df = Except.ok ChartKind.line) ∧
      Str.determine_chart_type df ≠ Except.ok ChartKind.pie) := by
  constructor
  · intro hr
    have he : df.empty = false := by
      simp only [DataFrame.empty, Bool.or_eq_false_iff, beq_eq_false_iff_ne, ne_eq]
      omega
    rw [str_ok df he, waterfall_eq_core, hc, ha, hb, hr]
    cases ht : time_check df <;> decide
  · intro hr
    have he : df.empty = false := by
      simp only [DataFrame.empty, Bool.or_eq_false_iff, beq_eq_false_iff_ne, ne_eq]
      omega
    rw [str_ok df he, waterfall_eq_core, hc, ha, hb, hr]
    cases ht : time_check df <;> decide

def exC4 : DataFrame :=
  ⟨[⟨"Category", .object, [.text "a", .text "b", .text "c", .text "d", .text "e",
      .text "f", .text "g", .text "h", .text "i", .text "j"]⟩,
    ⟨"Value", .int64, [.num 1, .num 2, .num 3, .num 4, .num 5, .num 6, .num 7,
      .num 8, .num 9, .num 10]⟩]⟩

theorem claim_C4_witness :
    (exC4.cols.length = 2 ∧ num_cols exC4 = 1 ∧ cat_cols exC4 = 1 ∧ exC4.len = 10) ∧
    ((exC4.len = 10 → Str.determine_chart_type exC4 = Except.ok ChartKind.pie) ∧
      (exC4.len = 11 →
        (Str.determine_chart_type exC4 = Except.ok ChartKind.bar ∨
          Str.determine_chart_type exC4 = Except.ok ChartKind.line) ∧
        Str.determine_chart_type exC4 ≠ Except.ok ChartKind.pie)) :=
  ⟨by decide, claim_C4_pie_boundary exC4 (by decide) (by decide) (by decide)⟩

/-! ### Claim C5 -/

/-- Claim C5: on any frame whose columns are all numeric or object/category,
the richest selector never returns area, dot, treemap or gauge (each shadowed
by the earlier bar rule) and never returns bubble (shadowed by the earlier
scatter rule, since 3 or more numeric columns are in particular 2 or more). -/
theorem claim_C5_unreachable_kinds (df : DataFrame)
    (h : ∀ c ∈ df.cols, c.dtype.isNumeric = true ∨ c.dtype.isObjectCategory = true) :
    Waterfall.determine_chart_type df ∉
      ([.area, .dot, .treemap, .gauge, .bubble] : List ChartKind) ∧
    ∀ k ∈ ([.area, .dot, .treemap, .gauge, .bubble] : List ChartKind),
      Str.determine_chart_type df ≠ Except.ok k := by
  have hw : Waterfall.determine_chart_type df ∉
      ([.area, .dot, .treemap, .gauge, .bubble] : List ChartKind) := by
    rw [waterfall_eq_core]
    exact selectCore_unreachable _ _ _ _ _ (num_add_cat_of_kinds df h)
  refine ⟨hw, fun k hk hc => ?_⟩
  cases he : df.empty with
  | false =>
    rw [str_ok df he] at hc
    rw [← Except.ok.inj hc] at hk
    exact hw hk
  | true =>
    rw [str_err df he] at hc
    exact Except.noConfusion hc

def exC5 : DataFrame :=
  ⟨[⟨"Category", .object, [.text "A", .text "B"]⟩,
    ⟨"Value", .float64, [.num 1, .num 2]⟩]⟩

theorem claim_C5_witness :
    (∀ c ∈ exC5.cols, c.dtype.isNumeric = true ∨ c.dtype.isObjectCategory = true) ∧
    (Waterfall.determine_chart_type exC5 ∉
        ([.area, .dot, .treemap, .gauge, .bubble] : List ChartKind) ∧
      ∀ k ∈ ([.area, .dot, .treemap, .gauge, .bubble] : List ChartKind),
        Str.determine_chart_type exC5 ≠ Except.ok k) :=
  ⟨by decide, claim_C5_unreachable_kinds exC5 (by decide)⟩

/-! ### Claim C6 -/

def exC6 : DataFrame :=
  ⟨[⟨"Category", .object, [.text "A", .text "B", .text "C", .text "D", .text "E"]⟩,
    ⟨"Value", .int64, [.num 1, .num 2, .num 3, .num 4, .num 5]⟩]⟩

/-- Claim C6 is false as stated: this frame matches both rule 7 (bar) and
rule 8 (area) of the canonical ordered decision list, with 7 < 8, yet the
richest selector returns pie — rule 0 also matches and fires first — so the
result is not rule 7's kind. -/
theorem claim_C6_counterexample :
    rulePred 7 exC6 ∧ rulePred 8 exC6 ∧
    Waterfall.determine_chart_type exC6 = ChartKind.pie ∧
    ChartKind.pie ≠ ruleKind 7 := by decide

/-- Claim C6 (amended): the richest selector is the ordered decision list
over `rulePred`/`ruleKind`: whenever rule `i` matches and no rule before `i`
matches, the result is rule `i`'s kind (and str.py agrees, wrapped in `ok`,
on non-empty input). -/
theorem claim_C6_amended (df : DataFrame) (i : Nat) (hi : i < 12)
    (hp : rulePred i df) (hfirst : ∀ k, k < i → ¬ rulePred k df) :
    Waterfall.determine_chart_type df = ruleKind i ∧
    (df.empty = false → Str.determine_chart_type df = Except.ok (ruleKind i)) := by
  have hw : Waterfall.determine_chart_type df = ruleKind i := by
    rw [waterfall_eq_core]
    interval_cases i
    · simp only [rulePred] at hp
      unfold selectCore
      rw [if_pos hp]
      rfl
    · have h0 := hfirst 0 (by omega)
      simp only [rulePred] at hp h0
      unfold selectCore
      rw [if_neg h0, if_pos hp]
      rfl
    · have h0 := hfirst 0 (by omega)
      have h1 := hfirst 1 (by omega)
      simp only [rulePred] at hp h0 h1
      unfold selectCore
      rw [if_neg h0, if_neg h1, if_pos hp]
      rfl
    · have h0 := hfirst 0 (by omega)
      have h1 := hfirst 1 (by omega)
      have h2 := hfirst 2 (by omega)
      simp only [rulePred] at hp h0 h1 h2
      unfold selectCore
      rw [if_neg h0, if_neg h1, if_neg h2, if_pos hp]
      rfl
    · have h0 := hfirst 0 (by omega)
      have h1 := hfirst 1 (by omega)
      have h2 := hfirst 2 (by omega)
      have h3 := hfirst 3 (by omega)
      simp only [rulePred] at hp h0 h1 h2 h3
      unfold selectCore
      rw [if_neg h0, if_neg h1, if_neg h2, if_neg h3, if_pos hp]
      rfl
    · have h2 := hfirst 2 (by omega)
      simp only [rulePred] at hp h2
      exact absurd (by omega : 2 ≤ num_cols df) h2
    · have h0 := hfirst 0 (by omega)
      have h1 := hfirst 1 (by omega)
      have h2 := hfirst 2 (by omega)
      have h3 := hfirst 3 (by omega)
      have h4 := hfirst 4 (by omega)
      have h5 := hfirst 5 (by omega)
      simp only [rulePred] at hp h0 h1 h2 h3 h4 h5
      unfold selectCore
      rw [if_neg h0, if_neg h1, if_neg h2, if_neg h3, if_neg h4, if_neg h5, if_pos hp]
      rfl
    · have h0 := hfirst 0 (by omega)
      have h1 := hfirst 1 (by omega)
      have h2 := hfirst 2 (by omega)
      have h3 := hfirst 3 (by omega)
      have h4 := hfirst 4 (by omega)
      have h5 := hfirst 5 (by omega)
      have h6 := hfirst 6 (by omega)
      simp only [rulePred] at hp h0 h1 h2 h3 h4 h5 h6
      unfold selectCore
      rw [if_neg h0, if_neg h1, if_neg h2, if_neg h3, if_neg h4, if_neg h5,
        if_neg h6, if_pos hp]
      rfl
    · have h0 := hfirst 0 (by omega)
      have h1 := hfirst 1 (by omega)
      have h2 := hfirst 2 (by omega)
      have h3 := hfirst 3 (by omega)
      have h4 := hfirst 4 (by omega)
      have h5 := hfirst 5 (by omega)
      have h6 := hfirst 6 (by omega)
      have h7 := hfirst 7 (by omega)
      simp only [rulePred] at hp h0 h1 h2 h3 h4 h5 h6 h7
      unfold selectCore
      rw [if_neg h0, if_neg h1, if_neg h2, if_neg h3, if_neg h4, if_neg h5,
        if_neg h6, if_neg h7, if_pos hp]
      rfl
    · have h7 := hfirst 7 (by omega)
      simp only [rulePred] at hp h7
      exact absurd (Or.inl hp) h7
    · have h9 := hfirst 9 (by omega)
      simp only [rulePred] at hp h9
      exact absurd hp h9
    · have h9 := hfirst 9 (by omega)
      simp only [rulePred] at hp h9
      exact absurd ⟨hp.1, hp.2.1, hp.2.2.1⟩ h9
  exact ⟨hw, fun he => by rw [str_ok df he, hw]⟩

theorem claim_C6_witness :
    ((0 : Nat) < 12 ∧ rulePred 0 exC6) ∧
    (Waterfall.determine_chart_type exC6 = ruleKind 0 ∧
      (exC6.empty = false → Str.determine_chart_type exC6 = Except.ok (ruleKind 0))) :=
  ⟨⟨by omega, by decide⟩,
    claim_C6_amended exC6 0 (by omega) (by decide)
      (fun k hk => absurd hk (Nat.not_lt_zero k))⟩

/-! ### Claim C7 -/

def exC7c0 : Column :=
  ⟨"Category1", .object, [.text "A", .text "B", .text "C", .text "D", .text "E"]⟩

def exC7c1 : Column :=
  ⟨"Category2", .object, [.text "X", .text "Y", .text "Z", .text "W", .text "V"]⟩

def exC7c2 : Column :=
  ⟨"Value", .int64, [.num 10, .num 20, .num 30, .num 40, .num 50]⟩

def exC7 : DataFrame := ⟨[exC7c0, exC7c1, exC7c2]⟩

/-- Claim C7 is false as stated: on the 3-column frame with 2 categorical
and 1 numeric column and no time-token name, the name-driven richest variant
(str.py) returns bar, not heatmap, and the csv1.py rule set returns box, not
bar.  (The heatmap answer belongs to the dtype-positional variant of
pqr.py/xyz.py.) -/
theorem claim_C7_counterexample :
    Str.determine_chart_type exC7 = Except.ok ChartKind.bar ∧
    Str.determine_chart_type exC7 ≠ Except.ok ChartKind.heatmap ∧
    Csv1.determine_chart_type exC7 = ChartKind.box ∧
    Csv1.determine_chart_type exC7 ≠ ChartKind.bar := by decide

/-- Claim C7 (amended): a 3-column frame ordered categorical, categorical,
numeric, without time-token names and with at least one row, is classified
bar by the richest name-driven rule set (str.py/waterfall.py), heatmap by
the dtype-positional rule set (pqr.py/xyz.py), and box by csv1.py's rule
set. -/
theorem claim_C7_amended (df : DataFrame) (c0 c1 c2 : Column)
    (hcols : df.cols = [c0, c1, c2])
    (h0 : c0.dtype.isObjectCategory = true) (h1 : c1.dtype.isObjectCategory = true)
    (h2 : c2.dtype.isNumeric = true) (ht : time_check df = false) (hr : 0 < df.len) :
    Str.determine_chart_type df = Except.ok ChartKind.bar ∧
    Pqr.determine_chart_type df = ChartKind.heatmap ∧
    Xyz.determine_chart_type df = ChartKind.heatmap ∧
    Csv1.determine_chart_type df = ChartKind.box := by
  have hn0 := not_num_of_objcat h0
  have hn1 := not_num_of_objcat h1
  have hc2 := not_objcat_of_num h2
  have hlen : df.cols.length = 3 := by rw [hcols]; rfl
  have ha : num_cols df = 1 := by
    unfold num_cols
    rw [hcols]
    simp [List.filter_cons, hn0, hn1, h2]
  have hb : cat_cols df = 2 := by
    unfold cat_cols
    rw [hcols]
    simp [List.filter_cons, h0, h1, hc2]
  have hbc : Csv1.cat_cols df = 2 := by
    unfold Csv1.cat_cols
    rw [hcols]
    simp [List.filter_cons, hn0, hn1, h2]
  have he : df.empty = false := by
    simp only [DataFrame.empty, Bool.or_eq_false_iff, beq_eq_false_iff_ne, ne_eq]
    omega
  refine ⟨?_, ?_, ?_, ?_⟩
  · rw [str_ok df he, waterfall_eq_core, hlen, ha, hb, ht]
    simp [selectCore]
  · unfold Pqr.determine_chart_type
    rw [hcols]
    simp [h0, h1, h2]
  · unfold Xyz.determine_chart_type
    rw [hcols]
    simp [h0, h1, h2]
  · unfold Csv1.determine_chart_type
    rw [hlen, ha, hbc]
    simp

theorem claim_C7_witness :
    (exC7.cols = [exC7c0, exC7c1, exC7c2] ∧
      exC7c0.dtype.isObjectCategory = true ∧ exC7c1.dtype.isObjectCategory = true ∧
      exC7c2.dtype.isNumeric = true ∧ time_check exC7 = false ∧ 0 < exC7.len) ∧
    (Str.determine_chart_type exC7 = Except.ok ChartKind.bar ∧
      Pqr.determine_chart_type exC7 = ChartKind.heatmap ∧
      Xyz.determine_chart_type exC7 = ChartKind.heatmap ∧
      Csv1.determine_chart_type exC7 = ChartKind.box) :=
  ⟨⟨rfl, by decide, by decide, by decide, by decide, by decide⟩,
    claim_C7_amended exC7 exC7c0 exC7c1 exC7c2 rfl (by decide) (by decide)
      (by decide) (by decide) (by decide)⟩

/-! ### Claim C8 -/

def exC8 : DataFrame :=
  ⟨[⟨"Category", .object, [.text "a", .text "b", .text "c", .text "d", .text "e",
      .text "f", .text "g", .text "h", .text "i", .text "j", .text "k"]⟩,
    ⟨"Value", .int64, [.num 1, .num 2, .num 3, .num 4, .num 5, .num 6, .num 7,
      .num 8, .num 9, .num 10, .num 11]⟩]⟩

/-- Claim C8 is false as stated: on a 2-column frame with one numeric and one
categorical column and 11 rows, csv1.py's variant returns histogram, not the
claimed bar (its histogram branch tests the same shape first). -/
theorem claim_C8_counterexample :
    exC8.cols.length = 2 ∧ num_cols exC8 = 1 ∧ Csv1.cat_cols exC8 = 1 ∧
    10 < exC8.len ∧
    Csv1.determine_chart_type exC8 = ChartKind.histogram ∧
    Csv1.determine_chart_type exC8 ≠ ChartKind.bar := by decide

/-- Claim C8 (amended): csv1.py's variant branches on
(column count, numeric count, row count): a 2-column frame with exactly one
numeric column yields histogram above 10 rows and pie at 10 rows or fewer
(never bar); 2 numeric columns in a 2-column frame yield scatter; away from
2 columns, more than 2 numeric columns yield heatmap, exactly 2 yield line,
and a frame with at least one numeric and one non-numeric column but fewer
than 2 numeric columns yields box; a single numeric column alone yields
none, not histogram. -/
theorem claim_C8_amended (df : DataFrame) :
    (df.cols.length = 2 ∧ num_cols df = 1 ∧ 10 < df.len →
      Csv1.determine_chart_type df = ChartKind.histogram) ∧
    (df.cols.length = 2 ∧ num_cols df = 1 ∧ df.len ≤ 10 →
      Csv1.determine_chart_type df = ChartKind.pie) ∧
    (df.cols.length = 2 ∧ num_cols df = 2 →
      Csv1.determine_chart_type df = ChartKind.scatter) ∧
    (df.cols.length ≠ 2 ∧ 2 < num_cols df →
      Csv1.determine_chart_type df = ChartKind.heatmap) ∧
    (df.cols.length ≠ 2 ∧ num_cols df = 2 →
      Csv1.determine_chart_type df = ChartKind.line) ∧
    (df.cols.length ≠ 2 ∧ num_cols df < 2 ∧ 0 < num_cols df ∧ 0 < Csv1.cat_cols df →
      Csv1.determine_chart_type df = ChartKind.box) ∧
    (df.cols.length = 1 ∧ num_cols df = 1 →
      Csv1.determine_chart_type df = ChartKind.none) := by
  refine ⟨?_, ?_, ?_, ?_, ?_, ?_, ?_⟩
  · rintro ⟨hc, hn, hr⟩
    unfold Csv1.determine_chart_type
    rw [if_pos hc, if_pos ⟨hn, hr⟩]
  · rintro ⟨hc, hn, hr⟩
    unfold Csv1.determine_chart_type
    rw [if_pos hc, if_neg (by omega), if_pos ⟨hn, hr⟩]
  · rintro ⟨hc, hn⟩
    unfold Csv1.determine_chart_type
    rw [if_pos hc, if_neg (by omega), if_neg (by omega), if_pos hn]
  · rintro ⟨hc, hn⟩
    unfold Csv1.determine_chart_type
    rw [if_neg hc, if_pos (by omega), if_pos hn]
  · rintro ⟨hc, hn⟩
    unfold Csv1.determine_chart_type
    rw [if_neg hc, if_pos (by omega), if_neg (by omega)]
  · rintro ⟨hc, hn2, hn0, hcat⟩
    unfold Csv1.determine_chart_type
    rw [if_neg hc, if_neg (by omega), if_pos ⟨hcat, hn0⟩]
  · rintro ⟨hc, hn⟩
    have hpart := csv1_cat_add_num df
    unfold Csv1.determine_chart_type
    rw [if_neg (by omega), if_neg (by omega), if_neg (by omega)]

theorem claim_C8_witness :
    (exC8.cols.length = 2 ∧ num_cols exC8 = 1 ∧ 10 < exC8.len) ∧
    Csv1.determine_chart_type exC8 = ChartKind.histogram :=
  ⟨by decide, (claim_C8_amended exC8).1 (by decide)⟩

/-! ### Claim C9 -/

/-- Claim C9: when no classification rule of the richest variant matches,
str.py's selector returns the none sentinel (wrapped in `ok`), and it raises
(`Except.error`) exactly when the input frame itself is structurally
degenerate, i.e. empty along an axis. -/
theorem claim_C9_none_sentinel (df : DataFrame) :
    ((∀ i, i < 12 → ¬ rulePred i df) → df.empty = false →
      Str.determine_chart_type df = Except.ok ChartKind.none) ∧
    ((∃ e, Str.determine_chart_type df = Except.error e) ↔ df.empty = true) := by
  constructor
  · intro hno he
    have h0 := hno 0 (by omega)
    have h1 := hno 1 (by omega)
    have h2 := hno 2 (by omega)
    have h3 := hno 3 (by omega)
    have h4 := hno 4 (by omega)
    have h5 := hno 5 (by omega)
    have h6 := hno 6 (by omega)
    have h7 := hno 7 (by omega)
    have h8 := hno 8 (by omega)
    have h9 := hno 9 (by omega)
    have h10 := hno 10 (by omega)
    have h11 := hno 11 (by omega)
    simp only [rulePred] at h0 h1 h2 h3 h4 h5 h6 h7 h8 h9 h10 h11
    rw [str_ok df he, waterfall_eq_core]
    unfold selectCore
    rw [if_neg h0, if_neg h1, if_neg h2, if_neg h3, if_neg h4, if_neg h5, if_neg h6,
      if_neg h7, if_neg h8, if_neg h9, if_neg h10, if_neg h11]
  · constructor
    · rintro ⟨e, hee⟩
      cases he : df.empty with
      | true => rfl
      | false =>
        rw [str_ok df he] at hee
        exact Except.noConfusion hee
    · intro he
      exact ⟨Str.emptyMsg, str_err df he⟩

def exC9 : DataFrame := ⟨[⟨"Category", .object, [.text "A", .text "B", .text "C"]⟩]⟩

theorem claim_C9_witness :
    (∀ i, i < 12 → ¬ rulePred i exC9) ∧ exC9.empty = false ∧
    Str.determine_chart_type exC9 = Except.ok ChartKind.none :=
  ⟨by decide, by decide, (claim_C9_none_sentinel exC9).1 (by decide) (by decide)⟩

/-! ### Claim C10 -/

/-- Claim C10: in the dtype-positional variant (pqr.py/xyz.py), a 2-column
frame with categorical first column and numeric second column yields bar
whenever there is more than one row — the bar branch (`len(df) > 1`) is
tested before the pie branch (`len(df) <= 10`) — and pie only at one row or
fewer. -/
theorem claim_C10_bar_precedence (df : DataFrame) (c0 c1 : Column)
    (hcols : df.cols = [c0, c1])
    (h0 : c0.dtype.isObjectCategory = true) (h1 : c1.dtype.isNumeric = true) :
    (1 < df.len →
      Pqr.determine_chart_type df = ChartKind.bar ∧
      Xyz.determine_chart_type df = ChartKind.bar) ∧
    (Pqr.determine_chart_type df = ChartKind.pie → df.len ≤ 1) ∧
    (Xyz.determine_chart_type df = ChartKind.pie → df.len ≤ 1) ∧
    (df.len ≤ 1 →
      Pqr.determine_chart_type df = ChartKind.pie ∧
      Xyz.determine_chart_type df = ChartKind.pie) := by
  have hn0 := not_num_of_objcat h0
  have hx := Xyz.eq_pqr df
  have hbar : 1 < df.len → Pqr.determine_chart_type df = ChartKind.bar := by
    intro hr
    unfold Pqr.determine_chart_type
    rw [hcols]
    simp [hn0, h1, hr]
  have hpie : df.len ≤ 1 → Pqr.determine_chart_type df = ChartKind.pie := by
    intro hr
    have hr' : ¬(1 < df.len) := by omega
    have h10 : df.len ≤ 10 := by omega
    unfold Pqr.determine_chart_type
    rw [hcols]
    simp [hn0, h1, hr', h10]
  refine ⟨fun hr => ⟨hbar hr, by rw [hx]; exact hbar hr⟩, ?_, ?_,
    fun hr => ⟨hpie hr, by rw [hx]; exact hpie hr⟩⟩
  · intro hp
    by_contra hgt
    push_neg at hgt
    rw [hbar hgt] at hp
    exact ChartKind.noConfusion hp
  · intro hp
    rw [hx] at hp
    by_contra hgt
    push_neg at hgt
    rw [hbar hgt] at hp
    exact ChartKind.noConfusion hp

def exC10c0 : Column :=
  ⟨"Category", .object, [.text "A", .text "B", .text "C", .text "D", .text "E"]⟩

def exC10c1 : Column :=
  ⟨"Value", .int64, [.num 10, .num 20, .num 30, .num 40, .num 50]⟩

def exC10 : DataFrame := ⟨[exC10c0, exC10c1]⟩

theorem claim_C10_witness :
    (exC10.cols = [exC10c0, exC10c1] ∧ exC10c0.dtype.isObjectCategory = true ∧
      exC10c1.dtype.isNumeric = true ∧ 1 < exC10.len) ∧
    (Pqr.determine_chart_type exC10 = ChartKind.bar ∧
      Xyz.determine_chart_type exC10 = ChartKind.bar) :=
  ⟨⟨rfl, by decide, by decide, by decide⟩,
    (claim_C10_bar_precedence exC10 exC10c0 exC10c1 rfl (by decide) (by decide)).1
      (by decide)⟩

end ChartRepo
